import Mathlib

/-!
Shallow embedding of the downloadmagic repository (messaging substrate,
download registry/server and per-download workers), together with proofs
settling the frozen claims about its natural-language specification.

Source files embedded:
  src/messaging/message.py   (ThreadSubscriber, DefaultMessageBroker)
  src/messaging/online.py    (WebsocketBrokerServer queues, SocketServerMessageBroker)
  src/downloadmagic/download.py (DownloadStatus, DownloadOperation, Download)
  src/downloadmagic/server/server.py (DownloadServer)
  src/downloadmagic/server/worker.py (DownloadWorker, YoutubeDownloadWorker)

Machine integers do not occur (Python ints are unbounded); byte counts are
Nat, float quantities (progress, speed) are modelled as rationals with the
one fallible operation - division by a zero size, a Python
ZeroDivisionError - made explicit.  Stateful methods become explicit
state-passing functions; the unbounded recursion created by re-entrant
message processing (a START operation processed inside a transfer update
starts a nested transfer) is handled with a fuel parameter.
-/

namespace Downloadmagic

/-- The `DownloadStatus` enum of src/downloadmagic/download.py. -/
inductive DownloadStatus where
  | UNSTARTED
  | IN_PROGRESS
  | PAUSED
  | COMPLETED
  | CANCELED
  | ERROR
deriving DecidableEq, Repr

/-- The `DownloadOperation` enum of src/downloadmagic/download.py. -/
inductive DownloadOperation where
  | START
  | PAUSE
  | CANCEL
deriving DecidableEq, Repr

/-- The `Download` dataclass of src/downloadmagic/download.py.  Its fields
are exactly the dataclass fields; `filepath` is a computed property, not a
field (several call sites in the source nevertheless pass a `filepath=`
keyword argument, which the generated dataclass constructor does not
accept; the model keeps the field set of the dataclass). -/
structure Download where
  download_id : Nat
  url : String
  size : Nat
  download_directory : String
  filename : String
  is_pausable : Bool
deriving DecidableEq, Repr

/-- The `Download.filepath` property: `os.path.join(download_directory,
filename)`; the model uses a plain separator join, path normalization
being irrelevant to every claim. -/
def Download.filepath (d : Download) : String :=
  d.download_directory ++ "/" ++ d.filename

/-! ## Messaging layer: src/messaging/message.py and src/messaging/online.py -/

/-- A message as routed by the in-process bus (src/messaging/base.py):
a mapping with a mandatory `topic` routing key; the remaining keys,
irrelevant to bus routing, are collapsed into an opaque `payload`. -/
structure BrokerMessage where
  topic : String
  payload : String
deriving DecidableEq, Repr

/-- A Python `queue.Queue(maxsize)`.  A `maxsize` of zero (the default of
the bare `queue.Queue()` constructor) means the queue is unbounded. -/
structure PyQueue (α : Type) where
  maxsize : Nat
  items : List α
deriving DecidableEq, Repr

/-- `queue.Queue.put_nowait`: `none` models a raised `queue.Full`, which
happens exactly when the queue is bounded and already at capacity. -/
def PyQueue.put_nowait (q : PyQueue α) (a : α) : Option (PyQueue α) :=
  if 0 < q.maxsize ∧ q.maxsize ≤ q.items.length then none
  else some { q with items := q.items ++ [a] }

/-- Default bound of a `ThreadSubscriber` input queue
(src/messaging/message.py, `input_size: int = 10`). -/
def THREAD_SUBSCRIBER_DEFAULT_INPUT_SIZE : Nat := 10

/-- A `ThreadSubscriber` (src/messaging/message.py): a set of topics, the
`received` event flag and the bounded input queue. -/
structure ThreadSubscriber where
  topics : List String
  received : Bool
  input_queue : PyQueue BrokerMessage
deriving DecidableEq, Repr

/-- `ThreadSubscriber.__init__` with the default `input_size` of 10. -/
def ThreadSubscriber.new (topics : List String) : ThreadSubscriber :=
  { topics := topics
    received := false
    input_queue := { maxsize := THREAD_SUBSCRIBER_DEFAULT_INPUT_SIZE, items := [] } }

/-- `ThreadSubscriber.receive_message`: non-blocking enqueue; on
`queue.Full` the message is silently dropped and the `received` flag is
left alone; on success the `received` event is set. -/
def ThreadSubscriber.receive_message (s : ThreadSubscriber) (m : BrokerMessage) :
    ThreadSubscriber :=
  match s.input_queue.put_nowait m with
  | none => s
  | some q => { s with input_queue := q, received := true }

/-- `DefaultMessageBroker.send_message` (src/messaging/message.py): walk
the subscriber list in subscription order and call `receive_message` on
every subscriber whose topic set contains the message topic.  The second
component is the delivery trace: the subscribers (pre-state) on which
`receive_message` was invoked, in invocation order. -/
def DefaultMessageBroker.send_message (m : BrokerMessage) :
    List ThreadSubscriber → List ThreadSubscriber × List ThreadSubscriber
  | [] => ([], [])
  | s :: rest =>
    let r := DefaultMessageBroker.send_message m rest
    if m.topic ∈ s.topics then (s.receive_message m :: r.1, s :: r.2)
    else (s :: r.1, r.2)

/-- The outbound (websocket-bound) queue of `WebsocketBrokerServer`
(src/messaging/online.py line 17): created as a bare `queue.Queue()`,
i.e. with `maxsize` 0. -/
def WebsocketBrokerServer.initial_input_queue : PyQueue String :=
  { maxsize := 0, items := [] }

/-- `SocketServerMessageBroker._send_message_to_websocket`
(src/messaging/online.py): JSON-encode and `put_nowait` onto the server's
input queue, swallowing `queue.Full`.  The JSON encoding of the message is
taken as a parameter (`json.dumps` is environment code). -/
def SocketServerMessageBroker.send_message_to_websocket
    (q : PyQueue String) (encoded_message : String) : PyQueue String :=
  match q.put_nowait encoded_message with
  | none => q
  | some q2 => q2

/-! ## Typed messages: src/downloadmagic/message.py

Each message class of the source is a TypedDict whose `action` field is a
fixed tag; the tag becomes the constructor of `ServerInMessage` below, and
the remaining fields become structure fields.  `status` and
`download_operation` carry enum member values on the wire; the model keeps
the enums themselves (the correspondence `member <-> member.value` is a
bijection). -/

/-- `CreateDownloadMessage` payload fields. -/
structure CreateDownloadMessage where
  topic : String
  url : String
  download_directory : String
deriving DecidableEq, Repr

/-- `DownloadOperationMessage` payload fields. -/
structure DownloadOperationMessage where
  topic : String
  download_id : Nat
  download_operation : DownloadOperation
deriving DecidableEq, Repr

/-- `DownloadInfoMessage` payload fields. -/
structure DownloadInfoMessage where
  topic : String
  download_id : Nat
  url : String
  download_directory : String
  size : Nat
  filename : String
  filepath : String
  is_pausable : Bool
deriving DecidableEq, Repr

/-- `DownloadStatusMessage` payload fields.  `progress` and `speed` are
Python floats, modelled as rationals. -/
structure DownloadStatusMessage where
  topic : String
  download_id : Nat
  status : DownloadStatus
  downloaded_bytes : Nat
  progress : ℚ
  speed : ℚ
deriving DecidableEq, Repr

/-! ## Download server (registry): src/downloadmagic/server/server.py -/

/-- Lookup in a Python dict modelled as an association list
(`dict.get(k, None)`). -/
def dictGet (k : Nat) : List (Nat × α) → Option α
  | [] => none
  | (k2, v) :: rest => if k2 = k then some v else dictGet k rest

/-- Assignment `d[k] = v` in a Python dict modelled as an association
list: overwrite the existing binding or append a new one. -/
def dictSet (k : Nat) (v : α) : List (Nat × α) → List (Nat × α)
  | [] => [(k, v)]
  | (k2, v2) :: rest =>
    if k2 = k then (k, v) :: rest else (k2, v2) :: dictSet k v rest

/-- Substring test `sub in s` of Python. -/
def strContains (s sub : String) : Bool :=
  decide (List.IsInfix sub.toList s.toList)

/-- Models `os.path.abspath`; path normalization depends on the process
working directory (environment) and no claim inspects the value, so the
model keeps the path unchanged. -/
def os_path_abspath (p : String) : String := p

/-- The worker-class dispatch of `DownloadServer.create_download`:
a `YoutubeDownloadWorker` is used when the url contains `youtube.com` or
`youtu.be`, otherwise a plain `DownloadWorker`. -/
def is_youtube_url (url : String) : Bool :=
  strContains url "youtube.com" || strContains url "youtu.be"

/-- A worker constructed and started by `DownloadServer.create_download`:
the arguments of the constructor call plus which subclass was chosen. -/
structure SpawnedWorker where
  download_id : Nat
  url : String
  download_directory : String
  is_youtube : Bool
deriving DecidableEq, Repr

/-- The mutable state of `DownloadServer`: the `downloads` and
`downloads_status` dicts and the `_max_download_id` counter (initialised
to 1 in `__init__`). -/
structure ServerState where
  downloads : List (Nat × Download)
  downloads_status : List (Nat × DownloadStatusMessage)
  max_download_id : Nat
deriving DecidableEq, Repr

/-- `DownloadServer.__init__` state: empty maps, counter at 1. -/
def ServerState.initial : ServerState :=
  { downloads := [], downloads_status := [], max_download_id := 1 }

/-- A message published by the server on the broker. -/
inductive ServerOutMessage where
  | operation : DownloadOperationMessage → ServerOutMessage
  | info : DownloadInfoMessage → ServerOutMessage
  | status : DownloadStatusMessage → ServerOutMessage
deriving DecidableEq, Repr

/-- Result of the server processing one message: the new state, the
workers constructed and started, and the messages published. -/
structure ServerStepResult where
  state : ServerState
  spawned : List SpawnedWorker
  sent : List ServerOutMessage
deriving DecidableEq, Repr

/-- `DownloadServer._get_download_id`: return the counter and increment
it. -/
def ServerState.get_download_id (s : ServerState) : Nat × ServerState :=
  (s.max_download_id, { s with max_download_id := s.max_download_id + 1 })

/-- `DownloadServer.create_download`: allocate a fresh id, choose the
worker class from the url, construct the worker and start it.  The source
performs no lookup of `url` in `downloads`: every call allocates and
spawns. -/
def ServerState.create_download (s : ServerState) (url download_directory : String) :
    ServerStepResult :=
  let r := s.get_download_id
  let dir := os_path_abspath download_directory
  { state := r.2
    spawned := [{ download_id := r.1, url := url, download_directory := dir,
                  is_youtube := is_youtube_url url }]
    sent := [] }

/-- `DownloadServer._send_worker_message`: build a `DownloadOperation`
message on the worker-private topic `downloadworker{id}`. -/
def send_worker_message (download_id : Nat) (op : DownloadOperation) :
    DownloadOperationMessage :=
  { topic := "downloadworker" ++ toString download_id
    download_id := download_id
    download_operation := op }

/-- `DownloadServer._receive_create_download_message`: delegate to
`create_download` with the url and directory of the message. -/
def ServerState.receive_create_download_message (s : ServerState)
    (m : CreateDownloadMessage) : ServerStepResult :=
  s.create_download m.url m.download_directory

/-- `DownloadServer._receive_download_operation_message`: translate
`(id, op)` into a worker-topic message via `start_download` /
`pause_download` / `cancel_download`, all of which call
`_send_worker_message`.  No map is consulted. -/
def ServerState.receive_download_operation_message (s : ServerState)
    (m : DownloadOperationMessage) : ServerStepResult :=
  match m.download_operation with
  | DownloadOperation.START =>
    { state := s, spawned := [],
      sent := [ServerOutMessage.operation (send_worker_message m.download_id DownloadOperation.START)] }
  | DownloadOperation.PAUSE =>
    { state := s, spawned := [],
      sent := [ServerOutMessage.operation (send_worker_message m.download_id DownloadOperation.PAUSE)] }
  | DownloadOperation.CANCEL =>
    { state := s, spawned := [],
      sent := [ServerOutMessage.operation (send_worker_message m.download_id DownloadOperation.CANCEL)] }

/-- `DownloadServer._receive_download_info_message`: build a `Download`
from the message fields, store it under its id, rewrite the topic to
`downloadclient` and forward.  (The source also passes `filepath=` to the
`Download` constructor, an argument the dataclass does not accept; the
model keeps the dataclass fields.) -/
def ServerState.receive_download_info_message (s : ServerState)
    (m : DownloadInfoMessage) : ServerStepResult :=
  let d : Download :=
    { download_id := m.download_id, url := m.url, size := m.size,
      download_directory := m.download_directory, filename := m.filename,
      is_pausable := m.is_pausable }
  { state := { s with downloads := dictSet m.download_id d s.downloads }
    spawned := []
    sent := [ServerOutMessage.info { m with topic := "downloadclient" }] }

/-- `DownloadServer._receive_download_status`: if the id is not in
`downloads`, return; otherwise store the message in `downloads_status`,
rewrite its topic to `downloadclient` and forward.  The source stores the
very dict object it then mutates, so the stored snapshot carries the
rewritten topic; no entry of either map is ever deleted, whatever the
status field holds. -/
def ServerState.receive_download_status (s : ServerState)
    (m : DownloadStatusMessage) : ServerStepResult :=
  match dictGet m.download_id s.downloads with
  | none => { state := s, spawned := [], sent := [] }
  | some _ =>
    let m2 := { m with topic := "downloadclient" }
    { state := { s with downloads_status := dictSet m.download_id m2 s.downloads_status }
      spawned := []
      sent := [ServerOutMessage.status m2] }

/-- A message arriving on the server's `downloadserver` topic, dispatched
by `DownloadServer._process_message` on its `action` tag. -/
inductive ServerInMessage where
  | create : CreateDownloadMessage → ServerInMessage
  | operation : DownloadOperationMessage → ServerInMessage
  | info : DownloadInfoMessage → ServerInMessage
  | status : DownloadStatusMessage → ServerInMessage
deriving DecidableEq, Repr

/-- `DownloadServer._process_message`. -/
def ServerState.process_message (s : ServerState) : ServerInMessage → ServerStepResult
  | ServerInMessage.create m => s.receive_create_download_message m
  | ServerInMessage.operation m => s.receive_download_operation_message m
  | ServerInMessage.info m => s.receive_download_info_message m
  | ServerInMessage.status m => s.receive_download_status m

/-- Does the server currently track a download with the given url
(the property the specification's idempotency sentence quantifies
over)? -/
def ServerState.tracksUrl (s : ServerState) (url : String) : Bool :=
  s.downloads.any (fun p => p.2.url = url)

/-! ## Download worker: src/downloadmagic/server/worker.py

A worker is a thread owning one download.  Its mutable attributes form
`WorkerState`; the network, the filesystem and wall-clock timing are
environment inputs, supplied as scripts:

* a plain transfer (`_start_download`) consumes a list of `ChunkEvent`s,
  one per chunk produced by `response.iter_content`, each carrying the
  chunk length, the timer reading at its measure point, and the operation
  messages that are drained if an interval update fires there;
* a youtube transfer consumes a list of `YtEvent`s, one per invocation of
  `_progress_hook` by the external pipeline.

Because a START operation processed inside an update drains into a nested
`_start_download`, transfers nest to unbounded depth; successive transfers
take their scripts from a supply list and all recursion is fuelled. -/

/-- A message published by a worker on the `downloadserver` topic. -/
inductive WorkerMessage where
  | info : DownloadInfoMessage → WorkerMessage
  | status : DownloadStatusMessage → WorkerMessage
deriving DecidableEq, Repr

/-- The mutable attributes of a `DownloadWorker` thread, plus the one bit
of filesystem state the worker touches (whether its output file currently
exists) and the subclass tag used by Python method dispatch. -/
structure WorkerState where
  download : Download
  downloaded_bytes : Nat
  status : DownloadStatus
  speed : ℚ
  should_finish : Bool
  is_youtube : Bool
  file_exists : Bool
deriving DecidableEq, Repr

/-- One chunk delivered by `response.iter_content` in the transfer loop of
`DownloadWorker._start_download`: the chunk length, the timer's elapsed
reading when the chunk is measured, and the operation messages sitting in
the worker mailbox (drained only if the interval update fires, i.e. if
`elapsed >= UPDATE_INTERVAL`). -/
structure ChunkEvent where
  bytes : Nat
  elapsed : ℚ
  ops : List DownloadOperation
deriving DecidableEq, Repr

/-- One invocation of `YoutubeDownloadWorker._progress_hook` by the
external pipeline: the values it reads from the progress dict and the
operation messages drained by `_update_download`. -/
structure YtEvent where
  downloaded_bytes : Nat
  speed : ℚ
  ops : List DownloadOperation
deriving DecidableEq, Repr

/-- The environment script of one transfer, for either worker subclass. -/
inductive TransferScript where
  | plain : List ChunkEvent → TransferScript
  | yt : List YtEvent → TransferScript
deriving DecidableEq, Repr

/-- Take the next plain-transfer script from the supply; an absent or
mismatched head stands for a response whose body yields no chunks. -/
def takePlainScript : List TransferScript → List ChunkEvent × List TransferScript
  | TransferScript.plain events :: rest => (events, rest)
  | s => ([], s)

/-- Take the next pipeline script from the supply; an absent or mismatched
head stands for a pipeline that never invokes the progress hook. -/
def takeYtScript : List TransferScript → List YtEvent × List TransferScript
  | TransferScript.yt events :: rest => (events, rest)
  | s => ([], s)

/-- Result of running a worker method: the state on return (or at the
point an exception escaped), the unconsumed transfer-script supply, the
messages published, the successive values assigned to `self.status`
during the call, and whether an exception escaped the call (a
`ZeroDivisionError` from `_send_download_status`, or exhausted fuel). -/
structure OpResult where
  state : WorkerState
  supply : List TransferScript
  sent : List WorkerMessage
  trace : List DownloadStatus
  exn : Bool
deriving DecidableEq, Repr

/-- A method call that returns at once with no effects. -/
def OpResult.pure (w : WorkerState) (supply : List TransferScript) : OpResult :=
  { state := w, supply := supply, sent := [], trace := [], exn := false }

/-- Out-of-fuel result; the `exn` flag stops all further processing, so
theorems quantified over all fuels never mistake a truncated run for a
completed one. -/
def fuelExhausted (w : WorkerState) (supply : List TransferScript) : OpResult :=
  { state := w, supply := supply, sent := [], trace := [], exn := true }

/-- Sequencing of two worker method calls: the continuation runs only if
no exception escaped the first call; effects accumulate in order. -/
def OpResult.andThen (r : OpResult) (f : WorkerState → List TransferScript → OpResult) :
    OpResult :=
  if r.exn then r
  else
    let r2 := f r.state r.supply
    { state := r2.state, supply := r2.supply, sent := r.sent ++ r2.sent,
      trace := r.trace ++ r2.trace, exn := r2.exn }

/-- `DownloadWorker._send_download_status`: compute
`progress = downloaded_bytes / size` - a `ZeroDivisionError`, returned as
`none`, when `size` is zero - and build the status message. -/
def send_download_status (w : WorkerState) : Option DownloadStatusMessage :=
  if w.download.size = 0 then none
  else
    some { topic := "downloadserver"
           download_id := w.download.download_id
           status := w.status
           downloaded_bytes := w.downloaded_bytes
           progress := (w.downloaded_bytes : ℚ) / (w.download.size : ℚ)
           speed := w.speed }

/-- Run `_send_download_status` for its effect: publish the snapshot, or
let the `ZeroDivisionError` escape. -/
def emitStatus (w : WorkerState) (supply : List TransferScript) : OpResult :=
  match send_download_status w with
  | some m => { state := w, supply := supply, sent := [WorkerMessage.status m],
                trace := [], exn := false }
  | none => { state := w, supply := supply, sent := [], trace := [], exn := true }

/-- `DownloadWorker._delete_file`: `os.remove` with `FileNotFoundError`
swallowed - total, and afterwards the file does not exist. -/
def delete_file (w : WorkerState) : WorkerState :=
  { w with file_exists := false }

/-- `DownloadWorker._cancel_operation`: a no-op when the download is
COMPLETED; otherwise delete the file if the download is PAUSED, set the
status to CANCELED and publish a snapshot. -/
def cancel_operation (w : WorkerState) (supply : List TransferScript) : OpResult :=
  if w.status = DownloadStatus.COMPLETED then OpResult.pure w supply
  else
    let w1 := if w.status = DownloadStatus.PAUSED then delete_file w else w
    let w2 := { w1 with status := DownloadStatus.CANCELED }
    let r := emitStatus w2 supply
    { r with trace := [DownloadStatus.CANCELED] }

/-- `DownloadWorker._pause_operation`: only a download that is
IN_PROGRESS and pausable moves to PAUSED (with a snapshot). -/
def pause_operation (w : WorkerState) (supply : List TransferScript) : OpResult :=
  if w.status = DownloadStatus.IN_PROGRESS ∧ w.download.is_pausable then
    let w2 := { w with status := DownloadStatus.PAUSED }
    let r := emitStatus w2 supply
    { r with trace := [DownloadStatus.PAUSED] }
  else OpResult.pure w supply

/-- `DownloadWorker._finish_download`: on CANCELED delete the file and
return; on PAUSED return; otherwise set ERROR or COMPLETED according to
whether `downloaded_bytes` matches `size`, and publish a snapshot. -/
def finish_download (w : WorkerState) (supply : List TransferScript) : OpResult :=
  if w.status = DownloadStatus.CANCELED then OpResult.pure (delete_file w) supply
  else if w.status = DownloadStatus.PAUSED then OpResult.pure w supply
  else
    let st := if w.downloaded_bytes ≠ w.download.size
              then DownloadStatus.ERROR else DownloadStatus.COMPLETED
    let r := emitStatus { w with status := st } supply
    { r with trace := [st] }

/-- `DownloadWorker._initialize_download`: replace the placeholder
download with the probe result of `Download.from_url` - `none` models the
probe raising (connection failure, missing or malformed Content-Length),
in which case the exception escapes and nothing is published - then
publish the `DownloadInfo` message followed by a status snapshot. -/
def initialize_download (w : WorkerState) (supply : List TransferScript)
    (probe : Option Download) : OpResult :=
  match probe with
  | none => { state := w, supply := supply, sent := [], trace := [], exn := true }
  | some d =>
    let w1 := { w with download := d }
    let info : DownloadInfoMessage :=
      { topic := "downloadserver", download_id := d.download_id, url := d.url,
        download_directory := d.download_directory, size := d.size,
        filename := d.filename, filepath := d.filepath,
        is_pausable := d.is_pausable }
    let r := emitStatus w1 supply
    { r with sent := WorkerMessage.info info :: r.sent }

/-- `DownloadWorker.UPDATE_INTERVAL` (seconds). -/
def UPDATE_INTERVAL : ℚ := 1

mutual

/-- `DownloadWorker._process_message`: dispatch one `DownloadOperation`
message to the operation handlers. -/
def process_message (fuel : Nat) (w : WorkerState) (supply : List TransferScript)
    (op : DownloadOperation) : OpResult :=
  match fuel with
  | 0 => fuelExhausted w supply
  | f + 1 =>
    match op with
    | DownloadOperation.START => start_operation f w supply
    | DownloadOperation.CANCEL => cancel_operation w supply
    | DownloadOperation.PAUSE => pause_operation w supply

/-- `DownloadWorker._process_messsages` (sic): drain and process the
pending operation messages in order. -/
def process_messsages (fuel : Nat) (w : WorkerState) (supply : List TransferScript)
    (ops : List DownloadOperation) : OpResult :=
  match fuel with
  | 0 => fuelExhausted w supply
  | f + 1 =>
    match ops with
    | [] => OpResult.pure w supply
    | op :: rest =>
      (process_message f w supply op).andThen (fun w2 s2 => process_messsages f w2 s2 rest)

/-- `DownloadWorker._start_operation`: only an UNSTARTED or PAUSED
download is started; `should_finish` is reset and the transfer begins. -/
def start_operation (fuel : Nat) (w : WorkerState) (supply : List TransferScript) :
    OpResult :=
  match fuel with
  | 0 => fuelExhausted w supply
  | f + 1 =>
    if w.status = DownloadStatus.UNSTARTED ∨ w.status = DownloadStatus.PAUSED then
      start_download f { w with should_finish := false } supply
    else OpResult.pure w supply

/-- `_start_download`, dispatched on the worker subclass as in Python.

Plain `DownloadWorker._start_download`: open the connection and the output
file (truncate mode, or append mode with a Range header when resuming -
either way the file exists afterwards), set IN_PROGRESS, run the chunk
loop, then `_finish_download`.  The chunk script is taken from the head of
the supply when it is a plain script; an absent or mismatched script
stands for a response with no body.

`YoutubeDownloadWorker._start_download`: set IN_PROGRESS, run the external
pipeline with `_progress_hook` (the `ValueError` used to abort the
pipeline is swallowed by the `except ValueError` clause, already reflected
in `yt_transfer` returning normally), then `_finish_download`. -/
def start_download (fuel : Nat) (w : WorkerState) (supply : List TransferScript) :
    OpResult :=
  match fuel with
  | 0 => fuelExhausted w supply
  | f + 1 =>
    if w.is_youtube then
      let scr := takeYtScript supply
      let w1 := { w with status := DownloadStatus.IN_PROGRESS }
      let r := yt_transfer f w1 scr.2 scr.1
      let r1 := { r with trace := DownloadStatus.IN_PROGRESS :: r.trace }
      r1.andThen (fun w2 s2 => finish_download w2 s2)
    else
      let scr := takePlainScript supply
      let w1 := { w with status := DownloadStatus.IN_PROGRESS, file_exists := true }
      let r := transfer_chunks f w1 scr.2 0 scr.1
      let r1 := { r with trace := DownloadStatus.IN_PROGRESS :: r.trace }
      r1.andThen (fun w2 s2 => finish_download w2 s2)

/-- The chunk loop body of `DownloadWorker._start_download`: write the
chunk, add its length to `downloaded_bytes` and `cycle_bytes`, and if the
timer reading has reached `UPDATE_INTERVAL` run `_update`, breaking out of
the loop when it sets `should_finish` and resetting `cycle_bytes`
otherwise. -/
def transfer_chunks (fuel : Nat) (w : WorkerState) (supply : List TransferScript)
    (cycle_bytes : Nat) (events : List ChunkEvent) : OpResult :=
  match fuel with
  | 0 => fuelExhausted w supply
  | f + 1 =>
    match events with
    | [] => OpResult.pure w supply
    | e :: rest =>
      let w1 := { w with downloaded_bytes := w.downloaded_bytes + e.bytes }
      let cb := cycle_bytes + e.bytes
      if UPDATE_INTERVAL ≤ e.elapsed then
        let r := update f w1 supply cb e.elapsed e.ops
        if r.exn then r
        else if r.state.should_finish then r
        else r.andThen (fun w2 s2 => transfer_chunks f w2 s2 0 rest)
      else transfer_chunks f w1 supply cb rest

/-- `DownloadWorker._update`: if the download is already complete just set
`should_finish`; otherwise compute the instantaneous speed (the caller
guarantees `elapsed >= UPDATE_INTERVAL > 0`, so the division is safe),
drain and process the pending messages, set `should_finish` if they moved
the download to CANCELED or PAUSED, and otherwise publish a snapshot. -/
def update (fuel : Nat) (w : WorkerState) (supply : List TransferScript)
    (cycle_bytes : Nat) (elapsed : ℚ) (ops : List DownloadOperation) : OpResult :=
  match fuel with
  | 0 => fuelExhausted w supply
  | f + 1 =>
    if w.downloaded_bytes = w.download.size then
      OpResult.pure { w with should_finish := true } supply
    else
      let w1 := { w with speed := (cycle_bytes : ℚ) / elapsed }
      let r := process_messsages f w1 supply ops
      if r.exn then r
      else if r.state.status = DownloadStatus.CANCELED ∨
              r.state.status = DownloadStatus.PAUSED then
        { r with state := { r.state with should_finish := true } }
      else r.andThen (fun w2 s2 => emitStatus w2 s2)

/-- `YoutubeDownloadWorker._update_download`: when the download is
complete publish a snapshot (with the current, not necessarily terminal,
status) and return; otherwise process pending messages, set
`should_finish` on CANCELED/PAUSED, else publish a snapshot. -/
def yt_update_download (fuel : Nat) (w : WorkerState) (supply : List TransferScript)
    (ops : List DownloadOperation) : OpResult :=
  match fuel with
  | 0 => fuelExhausted w supply
  | f + 1 =>
    if w.downloaded_bytes = w.download.size then emitStatus w supply
    else
      let r := process_messsages f w supply ops
      if r.exn then r
      else if r.state.status = DownloadStatus.CANCELED ∨
              r.state.status = DownloadStatus.PAUSED then
        { r with state := { r.state with should_finish := true } }
      else r.andThen (fun w2 s2 => emitStatus w2 s2)

/-- The pipeline driving `YoutubeDownloadWorker._progress_hook`: each
event overwrites `downloaded_bytes` and `speed` from the progress dict and
runs `_update_download`; when `should_finish` is set the hook raises
`ValueError`, which aborts the pipeline (and is then caught by
`_start_download`). -/
def yt_transfer (fuel : Nat) (w : WorkerState) (supply : List TransferScript)
    (events : List YtEvent) : OpResult :=
  match fuel with
  | 0 => fuelExhausted w supply
  | f + 1 =>
    match events with
    | [] => OpResult.pure w supply
    | e :: rest =>
      let w1 := { w with downloaded_bytes := e.downloaded_bytes, speed := e.speed }
      let r := yt_update_download f w1 supply e.ops
      if r.exn then r
      else if r.state.should_finish then r
      else r.andThen (fun w2 s2 => yt_transfer f w2 s2 rest)

end

/-- The loop of `DownloadWorker.run` after `_initialize_download`: block
on the `received` event, process the drained messages, and return when the
status is COMPLETED or CANCELED.  Each batch is the list of operations
drained after one wakeup; the boolean records whether the loop exited
(`return`) rather than running out of batches while still waiting. -/
def worker_run_loop (fuel : Nat) (w : WorkerState) (supply : List TransferScript) :
    List (List DownloadOperation) → OpResult × Bool
  | [] => (OpResult.pure w supply, false)
  | b :: rest =>
    match fuel with
    | 0 => (fuelExhausted w supply, false)
    | f + 1 =>
      let r := process_messsages f w supply b
      if r.exn then (r, false)
      else if r.state.status = DownloadStatus.COMPLETED ∨
              r.state.status = DownloadStatus.CANCELED then (r, true)
      else
        let p := worker_run_loop f r.state r.supply rest
        ({ state := p.1.state, supply := p.1.supply, sent := r.sent ++ p.1.sent,
           trace := r.trace ++ p.1.trace, exn := p.1.exn }, p.2)

/-! ## Status-transition relations and trace infrastructure -/

/-- The transition relation asserted by the specification: `UNSTARTED ->
IN_PROGRESS`; `IN_PROGRESS -> PAUSED | COMPLETED | ERROR | CANCELED`;
`PAUSED -> IN_PROGRESS | CANCELED`; COMPLETED, CANCELED and ERROR
terminal.  Stated from the claim's words, to be compared with the
transitions the code realizes. -/
def claimed_transition : DownloadStatus → DownloadStatus → Bool
  | DownloadStatus.UNSTARTED, DownloadStatus.IN_PROGRESS => true
  | DownloadStatus.IN_PROGRESS, DownloadStatus.PAUSED => true
  | DownloadStatus.IN_PROGRESS, DownloadStatus.COMPLETED => true
  | DownloadStatus.IN_PROGRESS, DownloadStatus.ERROR => true
  | DownloadStatus.IN_PROGRESS, DownloadStatus.CANCELED => true
  | DownloadStatus.PAUSED, DownloadStatus.IN_PROGRESS => true
  | DownloadStatus.PAUSED, DownloadStatus.CANCELED => true
  | _, _ => false

/-- The transition relation the worker code actually realizes: the
specification's relation, plus cancellation out of UNSTARTED and ERROR
(`_cancel_operation` only excludes COMPLETED), plus the
`ERROR <-> COMPLETED` flips that `_finish_download` can perform after a
nested transfer (a START processed inside an update) ended in the other
terminal state. -/
def realized_transition (a b : DownloadStatus) : Bool :=
  claimed_transition a b ||
    match a, b with
    | DownloadStatus.UNSTARTED, DownloadStatus.CANCELED => true
    | DownloadStatus.ERROR, DownloadStatus.CANCELED => true
    | DownloadStatus.ERROR, DownloadStatus.COMPLETED => true
    | DownloadStatus.COMPLETED, DownloadStatus.ERROR => true
    | _, _ => false

/-- One step of the status field: either the assignment rewrites the same
value, or it is a realized transition. -/
def statusStep (a b : DownloadStatus) : Prop :=
  a = b ∨ realized_transition a b = true

/-- The last element of a list, or the supplied default for `[]`. -/
def listEndD (a : α) : List α → α
  | [] => a
  | b :: t => listEndD b t

theorem listEndD_append (a : α) (l1 l2 : List α) :
    listEndD a (l1 ++ l2) = listEndD (listEndD a l1) l2 := by
  induction l1 generalizing a with
  | nil => rfl
  | cons b t ih =>
    simp only [List.cons_append, listEndD]
    exact ih b

theorem listEndD_mem (a : α) (l : List α) : listEndD a l = a ∨ listEndD a l ∈ l := by
  induction l generalizing a with
  | nil => exact Or.inl rfl
  | cons b t ih =>
    rcases ih b with h | h
    · exact Or.inr (by simp [listEndD, h])
    · exact Or.inr (by simp [listEndD, h])

theorem chain_append_end {R : α → α → Prop} :
    ∀ (l1 : List α) (a : α) (l2 : List α),
      List.Chain R a l1 → List.Chain R (listEndD a l1) l2 → List.Chain R a (l1 ++ l2) := by
  intro l1
  induction l1 with
  | nil => intro a l2 _ h2; simpa [listEndD] using h2
  | cons b t ih =>
    intro a l2 h1 h2
    rw [List.cons_append]
    cases h1 with
    | cons hab hbt => exact List.Chain.cons hab (ih b l2 hbt (by simpa [listEndD] using h2))

/-- The invariant carried by every worker method call: the successive
status assignments form a chain of realized steps starting at the entry
status, the exit status is the last assigned value (or the entry status),
UNSTARTED is never assigned, the resolved size is unchanged, and every
published snapshot carries `progress = downloaded_bytes / size`. -/
def ResultOk (w : WorkerState) (r : OpResult) : Prop :=
  List.Chain statusStep w.status r.trace ∧
  r.state.status = listEndD w.status r.trace ∧
  DownloadStatus.UNSTARTED ∉ r.trace ∧
  r.state.download.size = w.download.size ∧
  ∀ m, WorkerMessage.status m ∈ r.sent →
    m.progress = (m.downloaded_bytes : ℚ) / (w.download.size : ℚ)

theorem ResultOk.mono {w w2 : WorkerState} {r : OpResult} (h : ResultOk w2 r)
    (hst : w2.status = w.status) (hsz : w2.download.size = w.download.size) :
    ResultOk w r := by
  obtain ⟨c, e, u, s, m⟩ := h
  exact ⟨hst ▸ c, hst ▸ e, u, hsz ▸ s, fun x hx => hsz ▸ m x hx⟩

theorem ResultOk.pure_ok (w : WorkerState) (s : List TransferScript) :
    ResultOk w (OpResult.pure w s) := by
  refine ⟨List.Chain.nil, rfl, by simp [OpResult.pure], rfl, ?_⟩
  intro m hm
  simp [OpResult.pure] at hm

theorem ResultOk.fuel_ok (w : WorkerState) (s : List TransferScript) :
    ResultOk w (fuelExhausted w s) := by
  refine ⟨List.Chain.nil, rfl, by simp [fuelExhausted], rfl, ?_⟩
  intro m hm
  simp [fuelExhausted] at hm

theorem ResultOk.andThen_ok {w : WorkerState} {r : OpResult}
    (h : ResultOk w r) (f : WorkerState → List TransferScript → OpResult)
    (hf : ∀ s, ResultOk r.state (f r.state s)) :
    ResultOk w (r.andThen f) := by
  unfold OpResult.andThen
  split
  · exact h
  · obtain ⟨c1, e1, u1, s1, m1⟩ := h
    obtain ⟨c2, e2, u2, s2, m2⟩ := hf r.supply
    refine ⟨?_, ?_, ?_, ?_, ?_⟩
    · exact chain_append_end r.trace w.status _ c1 (e1 ▸ c2)
    · simp only [listEndD_append]
      exact e2.trans (by rw [e1])
    · simp only [List.mem_append]
      intro hu
      rcases hu with hu | hu
      · exact u1 hu
      · exact u2 hu
    · exact s2.trans s1
    · intro m hm
      simp only [List.mem_append] at hm
      rcases hm with hm | hm
      · exact m1 m hm
      · rw [m2 m hm, s1]

theorem emitStatus_state (w : WorkerState) (s : List TransferScript) :
    (emitStatus w s).state = w := by
  rcases h : send_download_status w with _ | m <;> simp [emitStatus, h]

theorem emitStatus_trace (w : WorkerState) (s : List TransferScript) :
    (emitStatus w s).trace = [] := by
  rcases h : send_download_status w with _ | m <;> simp [emitStatus, h]

theorem emitStatus_ok (w : WorkerState) (s : List TransferScript) :
    ResultOk w (emitStatus w s) := by
  refine ⟨?_, ?_, ?_, ?_, ?_⟩
  · rw [emitStatus_trace]
    exact List.Chain.nil
  · rw [emitStatus_trace, emitStatus_state]
    rfl
  · rw [emitStatus_trace]
    simp
  · rw [emitStatus_state]
  · intro m hm
    rcases h : send_download_status w with _ | m2
    · simp [emitStatus, h] at hm
    · simp only [emitStatus, h] at hm
      simp at hm
      subst hm
      unfold send_download_status at h
      by_cases hsz : w.download.size = 0
      · rw [if_pos hsz] at h
        exact absurd h (by simp)
      · rw [if_neg hsz] at h
        have := Option.some.inj h
        rw [← this]

/-- Common shape of the operation handlers: assign a status and publish a
snapshot of the mutated state. -/
theorem emit_with_trace_ok {w w2 : WorkerState} {st : DownloadStatus}
    (s : List TransferScript)
    (hstep : statusStep w.status st)
    (hU : st ≠ DownloadStatus.UNSTARTED)
    (hw2st : w2.status = st)
    (hw2sz : w2.download.size = w.download.size) :
    ResultOk w { emitStatus w2 s with trace := [st] } := by
  obtain ⟨_, _, _, _, msg⟩ := emitStatus_ok w2 s
  refine ⟨List.Chain.cons hstep List.Chain.nil, ?_, ?_, ?_, ?_⟩
  · show (emitStatus w2 s).state.status = listEndD w.status [st]
    rw [emitStatus_state]
    simpa [listEndD] using hw2st
  · simpa using Ne.symm hU
  · show (emitStatus w2 s).state.download.size = w.download.size
    rw [emitStatus_state, hw2sz]
  · intro m hm
    rw [msg m hm, hw2sz]

theorem cancel_operation_ok (w : WorkerState) (s : List TransferScript) :
    ResultOk w (cancel_operation w s) := by
  unfold cancel_operation
  split
  · exact ResultOk.pure_ok w s
  · rename_i hK
    refine emit_with_trace_ok s ?_ (by decide) rfl ?_
    · rcases h : w.status with _ | _ | _ | _ | _ | _
      · exact Or.inr (by decide)
      · exact Or.inr (by decide)
      · exact Or.inr (by decide)
      · exact absurd h hK
      · exact Or.inl rfl
      · exact Or.inr (by decide)
    · show (if w.status = DownloadStatus.PAUSED then delete_file w else w).download.size
          = w.download.size
      split <;> rfl

theorem pause_operation_ok (w : WorkerState) (s : List TransferScript) :
    ResultOk w (pause_operation w s) := by
  unfold pause_operation
  split
  · rename_i hc
    refine emit_with_trace_ok s ?_ (by decide) rfl rfl
    rw [hc.1]
    exact Or.inr (by decide)
  · exact ResultOk.pure_ok w s

theorem finish_download_ok (w : WorkerState) (s : List TransferScript)
    (hU : w.status ≠ DownloadStatus.UNSTARTED) :
    ResultOk w (finish_download w s) := by
  unfold finish_download
  split
  · refine ⟨List.Chain.nil, rfl, ?_, rfl, ?_⟩
    · simp [OpResult.pure]
    · intro m hm
      simp [OpResult.pure] at hm
  · split
    · exact ResultOk.pure_ok w s
    · rename_i hC hP
      refine emit_with_trace_ok s ?_ ?_ rfl rfl
      · by_cases hd : w.downloaded_bytes = w.download.size
        · rw [if_neg (by simp [hd])]
          rcases h : w.status with _ | _ | _ | _ | _ | _
          · exact absurd h hU
          · exact Or.inr (by decide)
          · exact absurd h hP
          · exact Or.inl rfl
          · exact absurd h hC
          · exact Or.inr (by decide)
        · rw [if_pos hd]
          rcases h : w.status with _ | _ | _ | _ | _ | _
          · exact absurd h hU
          · exact Or.inr (by decide)
          · exact absurd h hP
          · exact Or.inr (by decide)
          · exact absurd h hC
          · exact Or.inl rfl
      · by_cases hd : w.downloaded_bytes = w.download.size
        · rw [if_neg (by simp [hd])]
          decide
        · rw [if_pos hd]
          decide

theorem ResultOk.set_should_finish {w : WorkerState} {r : OpResult}
    (h : ResultOk w r) (b : Bool) :
    ResultOk w { r with state := { r.state with should_finish := b } } := by
  obtain ⟨c, e, u, s, m⟩ := h
  exact ⟨c, e, u, s, m⟩

/-- A transfer (`w1` is the entry state with status just set to
IN_PROGRESS) followed by `_finish_download`, as both `_start_download`
bodies end. -/
theorem transfer_then_finish_ok {w w1 : WorkerState} {r : OpResult}
    (hUP : w.status = DownloadStatus.UNSTARTED ∨ w.status = DownloadStatus.PAUSED)
    (hr : ResultOk w1 r)
    (hw1st : w1.status = DownloadStatus.IN_PROGRESS)
    (hw1sz : w1.download.size = w.download.size) :
    ResultOk w (OpResult.andThen { r with trace := DownloadStatus.IN_PROGRESS :: r.trace }
      (fun w2 s2 => finish_download w2 s2)) := by
  obtain ⟨c, e, u, sz, msg⟩ := hr
  have hstep : statusStep w.status DownloadStatus.IN_PROGRESS := by
    rcases hUP with h | h <;> rw [h] <;> exact Or.inr (by decide)
  have hchain : List.Chain statusStep w.status (DownloadStatus.IN_PROGRESS :: r.trace) :=
    List.Chain.cons hstep (hw1st ▸ c)
  have hend : r.state.status = listEndD w.status (DownloadStatus.IN_PROGRESS :: r.trace) := by
    show r.state.status = listEndD DownloadStatus.IN_PROGRESS r.trace
    rw [e, hw1st]
  have h1 : ResultOk w { r with trace := DownloadStatus.IN_PROGRESS :: r.trace } := by
    refine ⟨hchain, hend, ?_, sz.trans hw1sz, ?_⟩
    · simp only [List.mem_cons]
      rintro (h | h)
      · exact absurd h (by decide)
      · exact u h
    · intro m hm
      rw [msg m hm, hw1sz]
  have hfin : r.state.status ≠ DownloadStatus.UNSTARTED := by
    rw [e]
    rcases listEndD_mem w1.status r.trace with he | he
    · rw [he, hw1st]
      decide
    · intro hcontra
      exact u (hcontra ▸ he)
  exact ResultOk.andThen_ok h1 _ (fun s2 => finish_download_ok _ s2 hfin)

/-- The joint invariant of every worker method, for every fuel: status
assignments follow the realized transition relation, the final status is
the last assignment, UNSTARTED is never assigned, the resolved size is
stable, and every published snapshot satisfies
`progress = downloaded_bytes / size`. -/
theorem worker_calls_ok : ∀ fuel : Nat,
    (∀ w s op, ResultOk w (process_message fuel w s op)) ∧
    (∀ w s ops, ResultOk w (process_messsages fuel w s ops)) ∧
    (∀ w s, ResultOk w (start_operation fuel w s)) ∧
    (∀ w s, (w.status = DownloadStatus.UNSTARTED ∨ w.status = DownloadStatus.PAUSED) →
      ResultOk w (start_download fuel w s)) ∧
    (∀ w s cb evs, ResultOk w (transfer_chunks fuel w s cb evs)) ∧
    (∀ w s cb el ops, ResultOk w (update fuel w s cb el ops)) ∧
    (∀ w s ops, ResultOk w (yt_update_download fuel w s ops)) ∧
    (∀ w s evs, ResultOk w (yt_transfer fuel w s evs)) := by
  intro fuel
  induction fuel with
  | zero =>
    refine ⟨?_, ?_, ?_, ?_, ?_, ?_, ?_, ?_⟩
    · intro w s op
      exact ResultOk.fuel_ok w s
    · intro w s ops
      exact ResultOk.fuel_ok w s
    · intro w s
      exact ResultOk.fuel_ok w s
    · intro w s _
      exact ResultOk.fuel_ok w s
    · intro w s cb evs
      exact ResultOk.fuel_ok w s
    · intro w s cb el ops
      exact ResultOk.fuel_ok w s
    · intro w s ops
      exact ResultOk.fuel_ok w s
    · intro w s evs
      exact ResultOk.fuel_ok w s
  | succ f ih =>
    obtain ⟨ihpm, ihpms, ihso, ihsd, ihtc, ihup, ihyud, ihyt⟩ := ih
    refine ⟨?_, ?_, ?_, ?_, ?_, ?_, ?_, ?_⟩
    · -- process_message
      intro w s op
      cases op
      · exact ihso w s
      · exact pause_operation_ok w s
      · exact cancel_operation_ok w s
    · -- process_messsages
      intro w s ops
      cases ops with
      | nil => exact ResultOk.pure_ok w s
      | cons op rest =>
        exact ResultOk.andThen_ok (ihpm w s op) _ (fun s2 => ihpms _ s2 rest)
    · -- start_operation
      intro w s
      simp only [start_operation]
      split
      · rename_i h
        exact ResultOk.mono (ihsd { w with should_finish := false } s h) rfl rfl
      · exact ResultOk.pure_ok w s
    · -- start_download
      intro w s hUP
      simp only [start_download]
      split
      · have hr := ihyt { w with status := DownloadStatus.IN_PROGRESS }
          (takeYtScript s).2 (takeYtScript s).1
        exact transfer_then_finish_ok hUP hr rfl rfl
      · have hr := ihtc
          { w with status := DownloadStatus.IN_PROGRESS, file_exists := true }
          (takePlainScript s).2 0 (takePlainScript s).1
        exact transfer_then_finish_ok hUP hr rfl rfl
    · -- transfer_chunks
      intro w s cb evs
      cases evs with
      | nil => exact ResultOk.pure_ok w s
      | cons e rest =>
        simp only [transfer_chunks]
        have hw1 : ∀ r, ResultOk { w with downloaded_bytes := w.downloaded_bytes + e.bytes } r →
            ResultOk w r := fun r h => ResultOk.mono h rfl rfl
        split
        · split
          · exact hw1 _ (ihup _ _ _ _ _)
          · split
            · exact hw1 _ (ihup _ _ _ _ _)
            · exact hw1 _ (ResultOk.andThen_ok (ihup _ _ _ _ _) _
                (fun s2 => ihtc _ s2 0 rest))
        · exact hw1 _ (ihtc _ _ _ _)
    · -- update
      intro w s cb el ops
      simp only [update]
      split
      · refine ⟨List.Chain.nil, rfl, by simp [OpResult.pure], rfl, ?_⟩
        intro m hm
        simp [OpResult.pure] at hm
      · have hw1 : ∀ r, ResultOk { w with speed := (cb : ℚ) / el } r → ResultOk w r :=
          fun r h => ResultOk.mono h rfl rfl
        split
        · exact hw1 _ (ihpms _ _ _)
        · split
          · exact hw1 _ (ResultOk.set_should_finish (ihpms _ _ _) true)
          · exact hw1 _ (ResultOk.andThen_ok (ihpms _ _ _) _
              (fun s2 => emitStatus_ok _ s2))
    · -- yt_update_download
      intro w s ops
      simp only [yt_update_download]
      split
      · exact emitStatus_ok w s
      · split
        · exact ihpms _ _ _
        · split
          · exact ResultOk.set_should_finish (ihpms _ _ _) true
          · exact ResultOk.andThen_ok (ihpms _ _ _) _ (fun s2 => emitStatus_ok _ s2)
    · -- yt_transfer
      intro w s evs
      cases evs with
      | nil => exact ResultOk.pure_ok w s
      | cons e rest =>
        simp only [yt_transfer]
        have hw1 : ∀ r,
            ResultOk { w with downloaded_bytes := e.downloaded_bytes, speed := e.speed } r →
            ResultOk w r := fun r h => ResultOk.mono h rfl rfl
        split
        · exact hw1 _ (ihyud _ _ _)
        · split
          · exact hw1 _ (ihyud _ _ _)
          · exact hw1 _ (ResultOk.andThen_ok (ihyud _ _ _) _
              (fun s2 => ihyt _ s2 rest))

/-- Sequential composition of two call results (the manual accumulation
performed by `worker_run_loop`). -/
theorem ResultOk.compose {w : WorkerState} {r r2 : OpResult}
    (h1 : ResultOk w r) (h2 : ResultOk r.state r2) :
    ResultOk w { state := r2.state, supply := r2.supply, sent := r.sent ++ r2.sent,
                 trace := r.trace ++ r2.trace, exn := r2.exn } := by
  obtain ⟨c1, e1, u1, s1, m1⟩ := h1
  obtain ⟨c2, e2, u2, s2, m2⟩ := h2
  refine ⟨?_, ?_, ?_, ?_, ?_⟩
  · exact chain_append_end r.trace w.status _ c1 (e1 ▸ c2)
  · simp only [listEndD_append]
    exact e2.trans (by rw [e1])
  · simp only [List.mem_append]
    rintro (hu | hu)
    · exact u1 hu
    · exact u2 hu
  · exact s2.trans s1
  · intro m hm
    simp only [List.mem_append] at hm
    rcases hm with hm | hm
    · exact m1 m hm
    · rw [m2 m hm, s1]

theorem worker_run_loop_nil (fuel : Nat) (w : WorkerState) (s : List TransferScript) :
    worker_run_loop fuel w s [] = (OpResult.pure w s, false) := by
  cases fuel <;> rfl

theorem worker_run_loop_zero (w : WorkerState) (s : List TransferScript)
    (b : List DownloadOperation) (rest : List (List DownloadOperation)) :
    worker_run_loop 0 w s (b :: rest) = (fuelExhausted w s, false) := rfl

theorem worker_run_loop_cons (f : Nat) (w : WorkerState) (s : List TransferScript)
    (b : List DownloadOperation) (rest : List (List DownloadOperation)) :
    worker_run_loop (f + 1) w s (b :: rest) =
      if (process_messsages f w s b).exn then (process_messsages f w s b, false)
      else if (process_messsages f w s b).state.status = DownloadStatus.COMPLETED ∨
              (process_messsages f w s b).state.status = DownloadStatus.CANCELED then
        (process_messsages f w s b, true)
      else
        ({ state := (worker_run_loop f (process_messsages f w s b).state
                      (process_messsages f w s b).supply rest).1.state
           supply := (worker_run_loop f (process_messsages f w s b).state
                      (process_messsages f w s b).supply rest).1.supply
           sent := (process_messsages f w s b).sent ++
                   (worker_run_loop f (process_messsages f w s b).state
                      (process_messsages f w s b).supply rest).1.sent
           trace := (process_messsages f w s b).trace ++
                    (worker_run_loop f (process_messsages f w s b).state
                      (process_messsages f w s b).supply rest).1.trace
           exn := (worker_run_loop f (process_messsages f w s b).state
                      (process_messsages f w s b).supply rest).1.exn },
         (worker_run_loop f (process_messsages f w s b).state
            (process_messsages f w s b).supply rest).2) := rfl

/-- The joint invariant extends to the worker's run loop. -/
theorem worker_run_loop_ok :
    ∀ (batches : List (List DownloadOperation)) (fuel : Nat) (w : WorkerState)
      (s : List TransferScript),
      ResultOk w (worker_run_loop fuel w s batches).1 := by
  intro batches
  induction batches with
  | nil =>
    intro fuel w s
    rw [worker_run_loop_nil]
    exact ResultOk.pure_ok w s
  | cons b rest ih =>
    intro fuel w s
    cases fuel with
    | zero =>
      rw [worker_run_loop_zero]
      exact ResultOk.fuel_ok w s
    | succ f =>
      rw [worker_run_loop_cons]
      have hr : ResultOk w (process_messsages f w s b) :=
        (worker_calls_ok f).2.1 w s b
      split
      · exact hr
      · split
        · exact hr
        · exact ResultOk.compose hr (ih f _ _)

/-- Exit characterization of the run loop: the loop returns exactly when
the status after some processed batch is COMPLETED or CANCELED. -/
theorem worker_run_loop_exit :
    ∀ (batches : List (List DownloadOperation)) (fuel : Nat) (w : WorkerState)
      (s : List TransferScript),
      ((worker_run_loop fuel w s batches).2 = true →
        ((worker_run_loop fuel w s batches).1.state.status = DownloadStatus.COMPLETED ∨
         (worker_run_loop fuel w s batches).1.state.status = DownloadStatus.CANCELED)) ∧
      ((worker_run_loop fuel w s batches).2 = false →
       (worker_run_loop fuel w s batches).1.exn = false → batches ≠ [] →
        ¬((worker_run_loop fuel w s batches).1.state.status = DownloadStatus.COMPLETED ∨
          (worker_run_loop fuel w s batches).1.state.status = DownloadStatus.CANCELED)) := by
  intro batches
  induction batches with
  | nil =>
    intro fuel w s
    rw [worker_run_loop_nil]
    exact ⟨fun h => absurd h (by simp), fun _ _ h => absurd rfl h⟩
  | cons b rest ih =>
    intro fuel w s
    cases fuel with
    | zero =>
      rw [worker_run_loop_zero]
      refine ⟨fun h => absurd h (by simp), fun _ hexn _ => ?_⟩
      exact absurd hexn (by simp [fuelExhausted])
    | succ f =>
      rw [worker_run_loop_cons]
      split
      · rename_i hx
        refine ⟨fun h => absurd h (by simp), fun _ hexn _ => ?_⟩
        have hfalse : (process_messsages f w s b).exn = false := hexn
        rw [hx] at hfalse
        simp at hfalse
      · split
        · rename_i hKC
          exact ⟨fun _ => hKC, fun h => absurd h (by simp)⟩
        · rename_i hexn hKC
          refine ⟨fun h => ?_, fun h hexn2 _ => ?_⟩
          · exact (ih f _ _).1 h
          · cases rest with
            | nil =>
              rw [worker_run_loop_nil] at h hexn2 ⊢
              exact hKC
            | cons b2 r2 =>
              exact (ih f _ _).2 h hexn2 (by simp)

/-! ## Remaining pieces of the worker: construction and initialization -/

/-- `DownloadWorker._get_placeholder_download`: real id, url and
directory; placeholder size, filename and pausability. -/
def get_placeholder_download (download_id : Nat) (url download_directory : String) :
    Download :=
  { download_id := download_id, url := url, size := 0,
    download_directory := download_directory, filename := "", is_pausable := false }

/-- The attributes set by `DownloadWorker.__init__` (the `is_youtube` flag
records which subclass the server instantiated). -/
def DownloadWorker.init (download_id : Nat) (url download_directory : String)
    (is_yt : Bool) : WorkerState :=
  { download := get_placeholder_download download_id url download_directory
    downloaded_bytes := 0
    status := DownloadStatus.UNSTARTED
    speed := 0
    should_finish := false
    is_youtube := is_yt
    file_exists := false }

/-! ## Small evaluation lemmas used by the claim proofs -/

theorem dictGet_dictSet_self (k : Nat) (v : α) :
    ∀ l : List (Nat × α), dictGet k (dictSet k v l) = some v := by
  intro l
  induction l with
  | nil => simp [dictGet, dictSet]
  | cons p rest ih =>
    by_cases hk : p.1 = k
    · simp [dictSet, hk, dictGet]
    · simp only [dictSet]
      rw [if_neg hk]
      simp only [dictGet]
      rw [if_neg hk]
      exact ih

theorem emitStatus_sent_zero (w : WorkerState) (s : List TransferScript)
    (hsz : w.download.size = 0) : (emitStatus w s).sent = [] := by
  unfold emitStatus send_download_status
  rw [if_pos hsz]

theorem emitStatus_sent_pos (w : WorkerState) (s : List TransferScript)
    (hsz : ¬w.download.size = 0) :
    (emitStatus w s).sent = [WorkerMessage.status
      { topic := "downloadserver", download_id := w.download.download_id,
        status := w.status, downloaded_bytes := w.downloaded_bytes,
        progress := (w.downloaded_bytes : ℚ) / (w.download.size : ℚ),
        speed := w.speed }] := by
  unfold emitStatus send_download_status
  rw [if_neg hsz]

theorem emitStatus_exn_zero (w : WorkerState) (s : List TransferScript)
    (hsz : w.download.size = 0) : (emitStatus w s).exn = true := by
  unfold emitStatus send_download_status
  rw [if_pos hsz]

theorem emitStatus_exn_pos (w : WorkerState) (s : List TransferScript)
    (hsz : ¬w.download.size = 0) : (emitStatus w s).exn = false := by
  unfold emitStatus send_download_status
  rw [if_neg hsz]

/-! ## Concrete fixtures for the counterexamples and witnesses -/

/-- A resolved ten-byte download. -/
def exDownload : Download :=
  { download_id := 1, url := "http://h/f.bin", size := 10,
    download_directory := "/tmp", filename := "f.bin", is_pausable := true }

/-- A worker owning `exDownload`, not yet started. -/
def exWorker : WorkerState :=
  { download := exDownload, downloaded_bytes := 0,
    status := DownloadStatus.UNSTARTED, speed := 0, should_finish := false,
    is_youtube := false, file_exists := false }

/-- A registry already tracking `exDownload` under id 1, next id 2. -/
def exServer : ServerState :=
  { downloads := [(1, exDownload)], downloads_status := [], max_download_id := 2 }

/-- The create message used by the C1 fixtures: same url as the tracked
`exDownload`. -/
def exCreateMsg : CreateDownloadMessage :=
  { topic := "downloadserver", url := "http://h/f.bin", download_directory := "/tmp" }

/-- A terminal (COMPLETED) status snapshot for download id 1, as a worker
publishes it. -/
def exStatusMsg : DownloadStatusMessage :=
  { topic := "downloadserver", download_id := 1,
    status := DownloadStatus.COMPLETED, downloaded_bytes := 10,
    progress := 1, speed := 0 }

/-- `exStatusMsg` with its topic rewritten for forwarding. -/
def exStatusMsgFwd : DownloadStatusMessage :=
  { exStatusMsg with topic := "downloadclient" }

/-- A worker that reached ERROR mid-transfer, with its partial file on
disk. -/
def exErrWorker : WorkerState :=
  { exWorker with status := DownloadStatus.ERROR, downloaded_bytes := 3, file_exists := true }

/-- A paused worker with its partial file on disk. -/
def exPausedWorker : WorkerState :=
  { exWorker with status := DownloadStatus.PAUSED, downloaded_bytes := 3, file_exists := true }

/-- A worker whose download completed. -/
def exDoneWorker : WorkerState :=
  { exWorker with status := DownloadStatus.COMPLETED, downloaded_bytes := 10, file_exists := true }

/-- A worker whose download was canceled during an active transfer. -/
def exCanceledWorker : WorkerState :=
  { exWorker with status := DownloadStatus.CANCELED, downloaded_bytes := 3, file_exists := true }

/-- `_receive_download_status` on a tracked id, in closed form. -/
theorem receive_download_status_tracked (s : ServerState) (m : DownloadStatusMessage)
    (d : Download) (hd : dictGet m.download_id s.downloads = some d) :
    s.receive_download_status m =
      { state := { s with downloads_status := dictSet m.download_id { m with topic := "downloadclient" } s.downloads_status }
        spawned := []
        sent := [ServerOutMessage.status { m with topic := "downloadclient" }] } := by
  unfold ServerState.receive_download_status
  rw [hd]

/-! ## Claim C1 -/

/-- C1, counterexample: the registry of `exServer` already tracks a
download with url `http://h/f.bin`, yet processing a CreateDownload for
that very url allocates the fresh id 2 (bumping the counter to 3) and
constructs and starts a new worker - the claim's "ignored (idempotent)"
behaviour does not exist in `DownloadServer.create_download`. -/
theorem c1_counterexample :
    exServer.tracksUrl exCreateMsg.url = true ∧
    (exServer.process_message (ServerInMessage.create exCreateMsg)).spawned =
      [{ download_id := 2, url := "http://h/f.bin", download_directory := "/tmp",
         is_youtube := false }] ∧
    (exServer.process_message (ServerInMessage.create exCreateMsg)).state.max_download_id = 3 :=
  ⟨rfl, rfl, rfl⟩

/-- C1 (amended): a CreateDownload whose url is already tracked is NOT
ignored: like every CreateDownload it allocates the next id, increments
the id counter, and constructs and starts one more worker for that url;
the `downloads` map is left unchanged (the record is only created later,
when the worker announces its metadata). -/
theorem c1_duplicate_url_still_spawns (s : ServerState) (m : CreateDownloadMessage)
    (_h : s.tracksUrl m.url = true) :
    (s.process_message (ServerInMessage.create m)).spawned =
      [{ download_id := s.max_download_id, url := m.url,
         download_directory := os_path_abspath m.download_directory,
         is_youtube := is_youtube_url m.url }] ∧
    (s.process_message (ServerInMessage.create m)).state.max_download_id =
      s.max_download_id + 1 ∧
    (s.process_message (ServerInMessage.create m)).state.downloads = s.downloads :=
  ⟨rfl, rfl, rfl⟩

/-- C1, witness: the amended theorem applied to the concrete tracked
registry. -/
theorem c1_witness :
    (exServer.process_message (ServerInMessage.create exCreateMsg)).spawned =
      [{ download_id := exServer.max_download_id, url := exCreateMsg.url,
         download_directory := os_path_abspath exCreateMsg.download_directory,
         is_youtube := is_youtube_url exCreateMsg.url }] ∧
    (exServer.process_message (ServerInMessage.create exCreateMsg)).state.max_download_id =
      exServer.max_download_id + 1 ∧
    (exServer.process_message (ServerInMessage.create exCreateMsg)).state.downloads =
      exServer.downloads :=
  c1_duplicate_url_still_spawns exServer exCreateMsg rfl

/-! ## Claim C2 -/

/-- C2, counterexample: `exServer` tracks id 1; processing a
DownloadStatus message for id 1 whose status is the terminal COMPLETED
leaves id 1 present in `downloads` and stores the snapshot in
`downloads_status` - `_receive_download_status` deletes nothing, contrary
to the claimed garbage collection. -/
theorem c2_counterexample :
    exStatusMsg.status = DownloadStatus.COMPLETED ∧
    (exServer.process_message (ServerInMessage.status exStatusMsg)).state.downloads =
      [(1, exDownload)] ∧
    dictGet 1 (exServer.process_message
      (ServerInMessage.status exStatusMsg)).state.downloads_status =
      some exStatusMsgFwd :=
  ⟨rfl, rfl, rfl⟩

/-- C2 (amended): a DownloadStatus message for a tracked id - terminal or
not - is stored in `downloads_status` (with its topic rewritten to
`downloadclient`) and forwarded; the `downloads` map is unchanged and
neither map ever has an entry removed. -/
theorem c2_terminal_status_not_evicted (s : ServerState) (m : DownloadStatusMessage)
    (h : (dictGet m.download_id s.downloads).isSome = true) :
    (s.process_message (ServerInMessage.status m)).state.downloads = s.downloads ∧
    dictGet m.download_id
      (s.process_message (ServerInMessage.status m)).state.downloads_status =
      some { m with topic := "downloadclient" } ∧
    (s.process_message (ServerInMessage.status m)).sent =
      [ServerOutMessage.status { m with topic := "downloadclient" }] := by
  rcases hd : dictGet m.download_id s.downloads with _ | d
  · rw [hd] at h
    simp at h
  · have he : s.process_message (ServerInMessage.status m) = s.receive_download_status m := rfl
    rw [he, receive_download_status_tracked s m d hd]
    exact ⟨rfl, dictGet_dictSet_self m.download_id _ s.downloads_status, rfl⟩

/-- C2, witness: the amended theorem at the concrete registry and a
terminal (COMPLETED) snapshot. -/
theorem c2_witness :
    (exServer.process_message (ServerInMessage.status exStatusMsg)).state.downloads =
      exServer.downloads ∧
    dictGet exStatusMsg.download_id (exServer.process_message
      (ServerInMessage.status exStatusMsg)).state.downloads_status =
      some { exStatusMsg with topic := "downloadclient" } ∧
    (exServer.process_message (ServerInMessage.status exStatusMsg)).sent =
      [ServerOutMessage.status { exStatusMsg with topic := "downloadclient" }] :=
  c2_terminal_status_not_evicted exServer exStatusMsg rfl

/-! ## Claim C3 -/

/-- C3, counterexample: a worker still UNSTARTED that processes one CANCEL
operation assigns CANCELED to its status - a transition the claimed
relation does not contain (`claimed_transition UNSTARTED CANCELED` is
false), since `_cancel_operation` only excludes COMPLETED. -/
theorem c3_counterexample :
    exWorker.status = DownloadStatus.UNSTARTED ∧
    (worker_run_loop 5 exWorker [] [[DownloadOperation.CANCEL]]).1.trace =
      [DownloadStatus.CANCELED] ∧
    claimed_transition DownloadStatus.UNSTARTED DownloadStatus.CANCELED = false :=
  ⟨rfl, rfl, rfl⟩

/-- C3 (amended): over any run of the worker loop, every change of the
status field lies in the realized transition relation: the claimed
relation extended with `UNSTARTED -> CANCELED` and `ERROR -> CANCELED`
(cancel is accepted from every non-COMPLETED state) and with
`ERROR -> COMPLETED` / `COMPLETED -> ERROR` (a nested transfer started by
a START operation processed mid-transfer can end in one terminal state
before the outer `_finish_download` assigns the other). -/
theorem c3_realized_transition_chain (fuel : Nat) (w : WorkerState)
    (s : List TransferScript) (batches : List (List DownloadOperation)) :
    List.Chain statusStep w.status (worker_run_loop fuel w s batches).1.trace :=
  (worker_run_loop_ok batches fuel w s).1

/-! ## Claim C4 -/

/-- C4, counterexample: a worker in ERROR whose partial file exists
processes CANCEL: the status does become CANCELED but the file is NOT
deleted (`_cancel_operation` only deletes when the status was PAUSED),
contradicting "deletes the partial output file if one exists". -/
theorem c4_counterexample :
    exErrWorker.status ≠ DownloadStatus.COMPLETED ∧
    exErrWorker.file_exists = true ∧
    (cancel_operation exErrWorker []).state.status = DownloadStatus.CANCELED ∧
    (cancel_operation exErrWorker []).state.file_exists = true :=
  ⟨by decide, rfl, rfl, rfl⟩

/-- C4 (amended): CANCEL from any non-COMPLETED state yields CANCELED,
but the partial file is deleted only when the worker was PAUSED at the
moment of the cancel, or when a cancel observed during an active transfer
reaches `_finish_download`; a cancel received in UNSTARTED or ERROR leaves
the file untouched.  From COMPLETED, CANCEL is a no-op. -/
theorem c4_cancel_semantics (w : WorkerState) (s : List TransferScript) :
    (w.status ≠ DownloadStatus.COMPLETED →
      (cancel_operation w s).state.status = DownloadStatus.CANCELED ∧
      (cancel_operation w s).state.file_exists =
        (if w.status = DownloadStatus.PAUSED then false else w.file_exists)) ∧
    (w.status = DownloadStatus.COMPLETED →
      cancel_operation w s = OpResult.pure w s) ∧
    (w.status = DownloadStatus.CANCELED →
      (finish_download w s).state.file_exists = false) := by
  refine ⟨?_, ?_, ?_⟩
  · intro hK
    unfold cancel_operation
    rw [if_neg hK]
    constructor
    · show (emitStatus _ _).state.status = _
      rw [emitStatus_state]
    · show (emitStatus _ _).state.file_exists = _
      rw [emitStatus_state]
      by_cases hP : w.status = DownloadStatus.PAUSED
      · rw [if_pos hP, if_pos hP]
        rfl
      · rw [if_neg hP, if_neg hP]
  · intro hK
    unfold cancel_operation
    rw [if_pos hK]
  · intro hC
    unfold finish_download
    rw [if_pos hC]
    rfl

/-- C4, witness: the amended theorem at a PAUSED worker with an existing
partial file (cancel deletes it), at a COMPLETED worker (no-op) and at a
CANCELED worker reaching `_finish_download` (file deleted). -/
theorem c4_witness :
    (cancel_operation exPausedWorker []).state.status = DownloadStatus.CANCELED ∧
    (cancel_operation exPausedWorker []).state.file_exists =
      (if exPausedWorker.status = DownloadStatus.PAUSED then false
       else exPausedWorker.file_exists) ∧
    cancel_operation exDoneWorker [] = OpResult.pure exDoneWorker [] ∧
    (finish_download exCanceledWorker []).state.file_exists = false :=
  ⟨((c4_cancel_semantics exPausedWorker []).1 (by decide)).1,
   ((c4_cancel_semantics exPausedWorker []).1 (by decide)).2,
   (c4_cancel_semantics exDoneWorker []).2.1 rfl,
   (c4_cancel_semantics exCanceledWorker []).2.2 rfl⟩

/-! ## Claim C5 -/

/-- C5, counterexample: a freshly constructed worker whose metadata probe
fails (the `Download.from_url` call raises) does NOT reach ERROR and does
NOT publish placeholder DownloadInfo: the exception escapes
`_initialize_download` (there is no try/except around the probe), nothing
is published, and the status is still UNSTARTED. -/
theorem c5_counterexample :
    (initialize_download (DownloadWorker.init 1 "http://h/f.bin" "/tmp" false)
      [] none).exn = true ∧
    (initialize_download (DownloadWorker.init 1 "http://h/f.bin" "/tmp" false)
      [] none).sent = [] ∧
    (initialize_download (DownloadWorker.init 1 "http://h/f.bin" "/tmp" false)
      [] none).state.status = DownloadStatus.UNSTARTED :=
  ⟨rfl, rfl, rfl⟩

/-- C5 (amended): when the metadata probe raises, the exception propagates
out of `_initialize_download` unhandled: the worker publishes no message,
changes no state (its status stays UNSTARTED rather than becoming ERROR,
and no filename is substituted), and the worker thread dies with the
exception. -/
theorem c5_probe_failure_raises (w : WorkerState) (s : List TransferScript) :
    initialize_download w s none =
      { state := w, supply := s, sent := [], trace := [], exn := true } :=
  rfl

/-! ## Claim C6 -/

/-- C6 (confirmed): `send_message` calls `receive_message` exactly on the
subscribed mailboxes whose topic set contains the message topic, in
subscription order (the delivery trace equals the filtered subscriber
list), and leaves every other mailbox untouched (the resulting list is the
pointwise update of the matching entries only). -/
theorem c6_bus_fanout (m : BrokerMessage) (subs : List ThreadSubscriber) :
    (DefaultMessageBroker.send_message m subs).2 =
      subs.filter (fun s => decide (m.topic ∈ s.topics)) ∧
    (DefaultMessageBroker.send_message m subs).1 =
      subs.map (fun s => if m.topic ∈ s.topics then s.receive_message m else s) := by
  induction subs with
  | nil => exact ⟨rfl, rfl⟩
  | cons a rest ih =>
    by_cases h : m.topic ∈ a.topics
    · refine ⟨?_, ?_⟩ <;>
        simp [DefaultMessageBroker.send_message, h, ih.1, ih.2, List.filter_cons]
    · refine ⟨?_, ?_⟩ <;>
        simp [DefaultMessageBroker.send_message, h, ih.1, ih.2, List.filter_cons]

/-! ## Claim C7 -/

/-- C7, counterexample: the Bridge's outbound queue is created as a bare
`queue.Queue()` - unbounded - so after ten enqueues an eleventh enqueue on
a queue already holding 10 messages is NOT dropped: the length reaches 11,
exceeding the claimed bound. -/
theorem c7_counterexample :
    ((List.replicate 10 "m").foldl SocketServerMessageBroker.send_message_to_websocket
      WebsocketBrokerServer.initial_input_queue).items.length = 10 ∧
    (SocketServerMessageBroker.send_message_to_websocket
      ((List.replicate 10 "m").foldl SocketServerMessageBroker.send_message_to_websocket
        WebsocketBrokerServer.initial_input_queue) "overflow").items.length = 11 :=
  ⟨rfl, rfl⟩

/-- C7 (amended): the Bridge's outbound queue is unbounded (`maxsize` 0):
an enqueue never blocks and never drops - it always appends, so the length
is not bounded by 10.  This differs from a Mailbox, whose default-10
bounded queue does drop a message arriving when 10 are already held. -/
theorem c7_bridge_queue_unbounded (q : PyQueue String) (a : String)
    (h : q.maxsize = 0) :
    SocketServerMessageBroker.send_message_to_websocket q a =
      { q with items := q.items ++ [a] } ∧
    WebsocketBrokerServer.initial_input_queue.maxsize = 0 ∧
    (∀ (sub : ThreadSubscriber) (m : BrokerMessage),
      sub.input_queue.maxsize = THREAD_SUBSCRIBER_DEFAULT_INPUT_SIZE →
      sub.input_queue.items.length = 10 →
      sub.receive_message m = sub) := by
  refine ⟨?_, rfl, ?_⟩
  · unfold SocketServerMessageBroker.send_message_to_websocket PyQueue.put_nowait
    rw [if_neg (by simp [h])]
  · intro sub m h10 hlen
    unfold ThreadSubscriber.receive_message PyQueue.put_nowait
    rw [if_pos ⟨by rw [h10]; decide, by rw [h10, hlen]; decide⟩]

/-- A broker message used by the C7 mailbox fixture. -/
def exBrokerMsg : BrokerMessage := { topic := "t", payload := "p" }

/-- A mailbox whose bounded input queue is full, for the C7 witness. -/
def exFullMailbox : ThreadSubscriber :=
  { topics := ["downloadserver"], received := true,
    input_queue := { maxsize := 10, items := List.replicate 10 exBrokerMsg } }

/-- C7, witness: the amended theorem applied to the empty bridge queue and
to a full mailbox. -/
theorem c7_witness :
    SocketServerMessageBroker.send_message_to_websocket { maxsize := 0, items := [] } "x" =
      { maxsize := 0, items := ([] : List String) ++ ["x"] } ∧
    exFullMailbox.receive_message exBrokerMsg = exFullMailbox :=
  ⟨(c7_bridge_queue_unbounded { maxsize := 0, items := [] } "x" rfl).1,
   (c7_bridge_queue_unbounded { maxsize := 0, items := [] } "x" rfl).2.2
     exFullMailbox exBrokerMsg rfl (by decide)⟩

/-! ## Claim C8 -/

/-- The youtube worker of `exDownload` at the moment its pipeline reports
all bytes downloaded, status still IN_PROGRESS. -/
def exYtWorker : WorkerState :=
  { exWorker with is_youtube := true, status := DownloadStatus.IN_PROGRESS, downloaded_bytes := 10 }

/-- The snapshot the youtube worker publishes at that moment: progress 1.0
with status IN_PROGRESS. -/
def exYtMsg : DownloadStatusMessage :=
  { topic := "downloadserver", download_id := 1,
    status := DownloadStatus.IN_PROGRESS, downloaded_bytes := 10,
    progress := ((10 : Nat) : ℚ) / ((10 : Nat) : ℚ), speed := 0 }

/-- C8, counterexample: `YoutubeDownloadWorker._update_download` with
`downloaded_bytes == size` publishes a snapshot carrying progress 1.0
while the status is still IN_PROGRESS - so progress 1.0 is NOT emitted
exactly when the status is COMPLETED. -/
theorem c8_counterexample :
    (yt_update_download 3 exYtWorker [] []).sent = [WorkerMessage.status exYtMsg] ∧
    exYtMsg.progress = 1 ∧
    exYtMsg.status ≠ DownloadStatus.COMPLETED :=
  ⟨rfl, by norm_num [exYtMsg], by decide⟩

theorem finish_download_sent_zero (w : WorkerState) (s : List TransferScript)
    (hC : ¬w.status = DownloadStatus.CANCELED) (hP : ¬w.status = DownloadStatus.PAUSED)
    (hsz : w.download.size = 0) : (finish_download w s).sent = [] := by
  unfold finish_download
  rw [if_neg hC, if_neg hP]
  exact emitStatus_sent_zero _ s hsz

theorem finish_download_sent_pos (w : WorkerState) (s : List TransferScript)
    (hC : ¬w.status = DownloadStatus.CANCELED) (hP : ¬w.status = DownloadStatus.PAUSED)
    (hsz : ¬w.download.size = 0) :
    (finish_download w s).sent = [WorkerMessage.status
      { topic := "downloadserver"
        download_id := w.download.download_id
        status := if w.downloaded_bytes ≠ w.download.size then DownloadStatus.ERROR
                  else DownloadStatus.COMPLETED
        downloaded_bytes := w.downloaded_bytes
        progress := (w.downloaded_bytes : ℚ) / (w.download.size : ℚ)
        speed := w.speed }] := by
  unfold finish_download
  rw [if_neg hC, if_neg hP]
  exact emitStatus_sent_pos _ s hsz

/-- C8 (amended): every snapshot any worker run emits satisfies
`progress = downloaded_bytes / size` exactly, and every snapshot published
by `_finish_download` with status COMPLETED has progress exactly 1; the
converse fails - a snapshot with progress 1.0 can be emitted in a
non-terminal status (see the youtube worker's size-reached update). -/
theorem c8_progress_semantics :
    (∀ (fuel : Nat) (w : WorkerState) (s : List TransferScript)
        (batches : List (List DownloadOperation)) (m : DownloadStatusMessage),
      WorkerMessage.status m ∈ (worker_run_loop fuel w s batches).1.sent →
      m.progress = (m.downloaded_bytes : ℚ) / (w.download.size : ℚ)) ∧
    (∀ (w : WorkerState) (s : List TransferScript) (m : DownloadStatusMessage),
      WorkerMessage.status m ∈ (finish_download w s).sent →
      m.status = DownloadStatus.COMPLETED → m.progress = 1) := by
  refine ⟨?_, ?_⟩
  · intro fuel w s batches m hm
    exact (worker_run_loop_ok batches fuel w s).2.2.2.2 m hm
  · intro w s m hm hK
    by_cases hC : w.status = DownloadStatus.CANCELED
    · have he : (finish_download w s).sent = [] := by
        unfold finish_download
        rw [if_pos hC]
        rfl
      rw [he] at hm
      simp at hm
    · by_cases hP : w.status = DownloadStatus.PAUSED
      · have he : (finish_download w s).sent = [] := by
          unfold finish_download
          rw [if_neg hC, if_pos hP]
          rfl
        rw [he] at hm
        simp at hm
      · by_cases hsz : w.download.size = 0
        · rw [finish_download_sent_zero w s hC hP hsz] at hm
          simp at hm
        · rw [finish_download_sent_pos w s hC hP hsz, List.mem_singleton] at hm
          injection hm with hm2
          subst hm2
          have hK2 : (if w.downloaded_bytes ≠ w.download.size then DownloadStatus.ERROR
              else DownloadStatus.COMPLETED) = DownloadStatus.COMPLETED := hK
          show ((w.downloaded_bytes : ℚ) / (w.download.size : ℚ)) = 1
          by_cases hd : w.downloaded_bytes = w.download.size
          · rw [hd]
            exact div_self (by exact_mod_cast hsz)
          · rw [if_pos hd] at hK2
            exact absurd hK2 (by decide)

/-- The terminal snapshot of the complete ten-byte run used as the C8 and
C9 witness input. -/
def exFinalMsg : DownloadStatusMessage :=
  { topic := "downloadserver", download_id := 1,
    status := DownloadStatus.COMPLETED, downloaded_bytes := 10,
    progress := ((10 : Nat) : ℚ) / ((10 : Nat) : ℚ), speed := 0 }

/-- The environment script of a one-chunk, ten-byte successful
transfer. -/
def exRunScript : List TransferScript :=
  [TransferScript.plain [{ bytes := 10, elapsed := 1, ops := [] }]]

/-- C8, witness: the run-loop part of the amended theorem evaluated on the
complete ten-byte run, whose final snapshot it pins to progress
`10 / 10`. -/
theorem c8_witness :
    WorkerMessage.status exFinalMsg ∈
      (worker_run_loop 9 exWorker exRunScript [[DownloadOperation.START]]).1.sent ∧
    exFinalMsg.progress =
      ((exFinalMsg.downloaded_bytes : ℚ) / (exWorker.download.size : ℚ)) :=
  ⟨by
     rw [show (worker_run_loop 9 exWorker exRunScript [[DownloadOperation.START]]).1.sent =
       [WorkerMessage.status exFinalMsg] from rfl]
     exact List.mem_singleton.mpr rfl,
   c8_progress_semantics.1 9 exWorker exRunScript [[DownloadOperation.START]]
     exFinalMsg (by
       rw [show (worker_run_loop 9 exWorker exRunScript [[DownloadOperation.START]]).1.sent =
         [WorkerMessage.status exFinalMsg] from rfl]
       exact List.mem_singleton.mpr rfl)⟩

/-! ## Claim C9 -/

/-- C9, counterexample: a worker in the terminal status ERROR that wakes
up and processes its (empty) batch of pending messages does NOT exit the
run loop - `run` only returns on COMPLETED or CANCELED, so an ERROR worker
keeps looping. -/
theorem c9_counterexample :
    (worker_run_loop 3 { exWorker with status := DownloadStatus.ERROR } [] [[]]).2 = false ∧
    ({ exWorker with status := DownloadStatus.ERROR } : WorkerState).status =
      DownloadStatus.ERROR :=
  ⟨rfl, rfl⟩

/-- C9 (amended): the run loop exits exactly when the status after some
processed batch is COMPLETED or CANCELED: whenever it returns the final
status is one of those two, and whenever it runs out of batches without
exiting (and without an escaped exception) the final status is neither -
in particular a worker in ERROR keeps waiting for messages. -/
theorem c9_run_loop_exit (fuel : Nat) (w : WorkerState) (s : List TransferScript)
    (batches : List (List DownloadOperation)) :
    ((worker_run_loop fuel w s batches).2 = true →
      ((worker_run_loop fuel w s batches).1.state.status = DownloadStatus.COMPLETED ∨
       (worker_run_loop fuel w s batches).1.state.status = DownloadStatus.CANCELED)) ∧
    ((worker_run_loop fuel w s batches).2 = false →
     (worker_run_loop fuel w s batches).1.exn = false → batches ≠ [] →
      ¬((worker_run_loop fuel w s batches).1.state.status = DownloadStatus.COMPLETED ∨
        (worker_run_loop fuel w s batches).1.state.status = DownloadStatus.CANCELED)) :=
  worker_run_loop_exit batches fuel w s

/-- C9, witness: the exit characterization applied to the complete run
(which exits with COMPLETED) - both implications discharged at concrete
inputs. -/
theorem c9_witness :
    ((worker_run_loop 9 exWorker exRunScript [[DownloadOperation.START]]).1.state.status =
       DownloadStatus.COMPLETED ∨
     (worker_run_loop 9 exWorker exRunScript [[DownloadOperation.START]]).1.state.status =
       DownloadStatus.CANCELED) ∧
    ¬((worker_run_loop 3 { exWorker with status := DownloadStatus.ERROR } [] [[]]).1.state.status =
        DownloadStatus.COMPLETED ∨
      (worker_run_loop 3 { exWorker with status := DownloadStatus.ERROR } [] [[]]).1.state.status =
        DownloadStatus.CANCELED) :=
  ⟨(c9_run_loop_exit 9 exWorker exRunScript [[DownloadOperation.START]]).1 (by decide),
   (c9_run_loop_exit 3 { exWorker with status := DownloadStatus.ERROR } [] [[]]).2
     (by decide) (by decide) (by decide)⟩

/-! ## Claim C10 -/

/-- C10 (confirmed): `_send_download_status` divides `downloaded_bytes` by
`download.size` with no guard: with size 0 it raises ZeroDivisionError
(no snapshot is produced - in particular `_initialize_download` after a
probe that resolved size 0 lets the error escape), and with size positive
the emission is total, producing the snapshot with
`progress = downloaded_bytes / size`. -/
theorem c10_snapshot_requires_positive_size (w : WorkerState)
    (s : List TransferScript) (d : Download) :
    (w.download.size = 0 → send_download_status w = none) ∧
    (0 < w.download.size →
      send_download_status w = some
        { topic := "downloadserver", download_id := w.download.download_id,
          status := w.status, downloaded_bytes := w.downloaded_bytes,
          progress := (w.downloaded_bytes : ℚ) / (w.download.size : ℚ),
          speed := w.speed }) ∧
    (d.size = 0 → (initialize_download w s (some d)).exn = true) ∧
    (0 < d.size → (initialize_download w s (some d)).exn = false) := by
  refine ⟨?_, ?_, ?_, ?_⟩
  · intro h
    unfold send_download_status
    rw [if_pos h]
  · intro h
    unfold send_download_status
    rw [if_neg (Nat.pos_iff_ne_zero.mp h)]
  · intro h
    show (emitStatus { w with download := d } s).exn = true
    exact emitStatus_exn_zero { w with download := d } s h
  · intro h
    show (emitStatus { w with download := d } s).exn = false
    exact emitStatus_exn_pos { w with download := d } s (Nat.pos_iff_ne_zero.mp h)

/-- A worker whose probe resolved a size of zero. -/
def exZeroWorker : WorkerState :=
  { exWorker with download := { exDownload with size := 0 } }

/-- C10, witness: size 0 raises (no snapshot, the initialization escapes
with the error), size 10 emits the snapshot. -/
theorem c10_witness :
    send_download_status exZeroWorker = none ∧
    send_download_status exWorker = some
      { topic := "downloadserver", download_id := 1,
        status := DownloadStatus.UNSTARTED, downloaded_bytes := 0,
        progress := ((0 : Nat) : ℚ) / ((10 : Nat) : ℚ), speed := 0 } ∧
    (initialize_download exWorker [] (some { exDownload with size := 0 })).exn = true ∧
    (initialize_download exZeroWorker [] (some exDownload)).exn = false :=
  ⟨(c10_snapshot_requires_positive_size exZeroWorker [] exDownload).1 rfl,
   (c10_snapshot_requires_positive_size exWorker [] exDownload).2.1 (by decide),
   (c10_snapshot_requires_positive_size exWorker []
      { exDownload with size := 0 }).2.2.1 rfl,
   (c10_snapshot_requires_positive_size exZeroWorker [] exDownload).2.2.2 (by decide)⟩

end Downloadmagic
